import Mathlib

/-!
Shallow embedding of src/test_c/false_positive_safe.c.

The file defines one C function:

  void safe_examples() {
      char buf[32];
      snprintf(buf, sizeof(buf), "Hello %s", "World");
      printf("Value: %d\n", 42);
      memcpy(buf, "abcd", 4);
  }

We model the machine state (the local 32-byte buffer, the standard-output
stream, and all other memory), a small printf-style formatting model, and
the three library calls; undefined behavior (format or argument mismatch,
out-of-bounds write or read) is modelled by the Option monad returning none.
The body of safe_examples is a list of three call statements executed in
order, instrumented with a trace of buffer writes and of executed calls.
-/

/-- Size in bytes of the local array declared as char buf[32] in safe_examples. -/
def BUF_SIZE : Nat := 32

/-- Bytes of a C string literal, terminator excluded. -/
def strBytes (s : String) : List Nat := s.toList.map Char.toNat

/-- Bytes of a C string literal as stored in memory, terminator included. -/
def cstrBytes (s : String) : List Nat := strBytes s ++ [0]

/-- Format string of the snprintf call in safe_examples. -/
def helloFmt : String := "Hello %s"

/-- Argument of the %s conversion in the snprintf call. -/
def worldLit : String := "World"

/-- Format string of the printf call in safe_examples. -/
def valueFmt : String := "Value: %d\n"

/-- Source literal of the memcpy call in safe_examples. -/
def abcdLit : String := "abcd"

/-- Text the snprintf call formats. -/
def helloWorldLit : String := "Hello World"

/-- Text the printf call emits. -/
def valueOutLit : String := "Value: 42\n"

/-- Text held by buf at the end of safe_examples, before the terminator. -/
def abcdoLit : String := "abcdo World"

/-- One directive of a printf-style format string. -/
inductive FmtItem
  | lit : Nat → FmtItem
  | convS : FmtItem
  | convD : FmtItem
  deriving DecidableEq

/-- A variadic argument passed to snprintf or printf. -/
inductive CArg
  | strArg : List Nat → CArg
  | intArg : Int → CArg
  deriving DecidableEq

/-- Parse a C format string into directives; none on a conversion the model
does not cover. -/
def parseFmt : List Char → Option (List FmtItem)
  | [] => some []
  | '%' :: 's' :: rest => (parseFmt rest).map fun items => FmtItem.convS :: items
  | '%' :: 'd' :: rest => (parseFmt rest).map fun items => FmtItem.convD :: items
  | '%' :: _ => none
  | c :: rest => (parseFmt rest).map fun items => FmtItem.lit c.toNat :: items

/-- Render parsed directives against the variadic arguments; none when the
argument count or an argument type does not match the conversions. -/
def formatArgs : List FmtItem → List CArg → Option (List Nat)
  | [], [] => some []
  | FmtItem.lit c :: items, args =>
      (formatArgs items args).map fun rest => c :: rest
  | FmtItem.convS :: items, CArg.strArg s :: args =>
      (formatArgs items args).map fun rest => s ++ rest
  | FmtItem.convD :: items, CArg.intArg n :: args =>
      (formatArgs items args).map fun rest => strBytes (toString n) ++ rest
  | _, _ => none

/-- Bytes snprintf stores into its destination: at most size - 1 bytes of the
formatted data followed by the terminator, and nothing at all when size is 0. -/
def snprintf_data (size : Nat) (data : List Nat) : List Nat :=
  if size = 0 then [] else data.take (size - 1) ++ [0]

/-- Contents of the 32-byte stack buffer; none marks an uninitialized byte. -/
abbrev CBuf := Fin BUF_SIZE → Option Nat

/-- Store data at the start of the buffer, leaving every byte past it unchanged. -/
def writeBuf (b : CBuf) (data : List Nat) : CBuf :=
  fun i => if i.val < data.length then some (data.getD i.val 0) else b i

/-- Record of one write into the stack buffer: number of bytes written and the
capacity of the destination. -/
structure BufWrite where
  len : Nat
  cap : Nat
  deriving DecidableEq

/-- The statements appearing in the body of safe_examples, one per library call. -/
inductive Stmt
  | callSnprintf : Nat → String → List CArg → Stmt
  | callPrintf : String → List CArg → Stmt
  | callMemcpy : String → Nat → Stmt
  deriving DecidableEq

/-- Machine state during a run of safe_examples: the local buffer, the
standard-output stream, all other memory, and a trace of buffer writes and of
executed calls. -/
structure CState where
  buf : CBuf
  out : List Nat
  mem : Nat → Nat
  writes : List BufWrite
  calls : List Stmt

/-- State outside the function: standard output so far and all non-local memory. -/
structure CWorld where
  out : List Nat
  mem : Nat → Nat

/-- State on entry to safe_examples: buf holds arbitrary garbage and nothing has
been written or called yet. -/
def initState (garbage : CBuf) (w : CWorld) : CState :=
  { buf := garbage, out := w.out, mem := w.mem, writes := [], calls := [] }

/-- Execute one statement; none models undefined behavior (a format or argument
mismatch, or a write or read past the end of a buffer). -/
def execStmt (s : CState) : Stmt → Option CState
  | Stmt.callSnprintf size fmt args =>
    match parseFmt fmt.toList with
    | none => none
    | some items =>
      match formatArgs items args with
      | none => none
      | some data =>
        let written := snprintf_data size data
        if written.length ≤ BUF_SIZE then
          some { s with
                 buf := writeBuf s.buf written,
                 writes := s.writes ++ [{ len := written.length, cap := BUF_SIZE }],
                 calls := s.calls ++ [Stmt.callSnprintf size fmt args] }
        else
          none
  | Stmt.callPrintf fmt args =>
    match parseFmt fmt.toList with
    | none => none
    | some items =>
      match formatArgs items args with
      | none => none
      | some data =>
        some { s with
               out := s.out ++ data,
               calls := s.calls ++ [Stmt.callPrintf fmt args] }
  | Stmt.callMemcpy src n =>
    if n ≤ (cstrBytes src).length ∧ n ≤ BUF_SIZE then
      some { s with
             buf := writeBuf s.buf ((cstrBytes src).take n),
             writes := s.writes ++ [{ len := n, cap := BUF_SIZE }],
             calls := s.calls ++ [Stmt.callMemcpy src n] }
    else
      none

/-- Run a list of statements in order, stopping at the first undefined behavior. -/
def execStmts : List Stmt → CState → Option CState
  | [], s => some s
  | stmt :: rest, s =>
    match execStmt s stmt with
    | none => none
    | some next => execStmts rest next

/-- Fuel-bounded runner: consumes one unit of fuel per executed statement and
gives up (none) when the fuel runs out before the statements do. -/
def execFuel : Nat → List Stmt → CState → Option CState
  | _, [], s => some s
  | 0, _ :: _, _ => none
  | Nat.succ fuel, stmt :: rest, s =>
    match execStmt s stmt with
    | none => none
    | some next => execFuel fuel rest next

/-- The body of safe_examples: snprintf, then printf, then memcpy, each with the
constant arguments written in the source. -/
def safe_examples_body : List Stmt :=
  [ Stmt.callSnprintf BUF_SIZE helloFmt [CArg.strArg (strBytes worldLit)],
    Stmt.callPrintf valueFmt [CArg.intArg 42],
    Stmt.callMemcpy abcdLit 4 ]

/-- Run safe_examples from an arbitrary garbage buffer and outside world. -/
def safe_examples (garbage : CBuf) (w : CWorld) : Option CState :=
  execStmts safe_examples_body (initState garbage w)

/-- Bytes snprintf leaves at the start of buf: Hello World and its terminator. -/
def helloBytes : List Nat := strBytes helloWorldLit ++ [0]

/-- Bytes the printf call appends to standard output. -/
def valueBytes : List Nat := strBytes valueOutLit

/-- Bytes the memcpy call copies into buf. -/
def abcdBytes : List Nat := strBytes abcdLit

/-- The state after the snprintf call alone. -/
def afterSnprintf (garbage : CBuf) (w : CWorld) : CState :=
  { buf := writeBuf garbage helloBytes,
    out := w.out,
    mem := w.mem,
    writes := [{ len := 12, cap := BUF_SIZE }],
    calls := [Stmt.callSnprintf BUF_SIZE helloFmt [CArg.strArg (strBytes worldLit)]] }

/-- The state safe_examples reaches: buf carries the snprintf text overwritten at
its head by the memcpy bytes, standard output gained the printf text, and all
other memory is untouched. -/
def finalState (garbage : CBuf) (w : CWorld) : CState :=
  { buf := writeBuf (writeBuf garbage helloBytes) abcdBytes,
    out := w.out ++ valueBytes,
    mem := w.mem,
    writes := [{ len := 12, cap := BUF_SIZE }, { len := 4, cap := BUF_SIZE }],
    calls := safe_examples_body }

/-- Executing the snprintf statement from the entry state succeeds and yields
afterSnprintf. -/
theorem execStmt_snprintf (garbage : CBuf) (w : CWorld) :
    execStmt (initState garbage w)
      (Stmt.callSnprintf BUF_SIZE helloFmt [CArg.strArg (strBytes worldLit)]) =
      some (afterSnprintf garbage w) := rfl

/-- Running safe_examples always succeeds with the computed final state. -/
theorem safe_examples_run (garbage : CBuf) (w : CWorld) :
    safe_examples garbage w = some (finalState garbage w) := rfl

/-- Whatever the formatted data, snprintf writes at most size bytes. -/
theorem snprintf_data_length (size : Nat) (data : List Nat) :
    (snprintf_data size data).length ≤ size := by
  unfold snprintf_data
  split
  · simp
  · simp
    omega

/-- Bytes at or past the length of the written data are untouched by writeBuf. -/
theorem writeBuf_frame (b : CBuf) (data : List Nat) (i : Fin BUF_SIZE)
    (h : data.length ≤ i.val) : writeBuf b data i = b i := by
  unfold writeBuf
  rw [if_neg]
  omega

/-- C1: every library call in safe_examples writes no more data than its
destination's capacity. The recorded buffer writes are exactly the snprintf
write of 12 bytes and the memcpy write of 4 bytes, each strictly below the
32-byte capacity of buf, and printf records no buffer write, so no
out-of-bounds write to buf (or any other buffer) occurs. -/
theorem C1_no_out_of_bounds_write (garbage : CBuf) (w : CWorld) :
    safe_examples garbage w = some (finalState garbage w) ∧
    (finalState garbage w).writes =
      [{ len := 12, cap := BUF_SIZE }, { len := 4, cap := BUF_SIZE }] ∧
    ((finalState garbage w).writes.all fun e => decide (e.len < e.cap)) = true :=
  ⟨safe_examples_run garbage w, rfl, rfl⟩

/-- C2: the snprintf call is a bounded formatted write with explicit destination
size BUF_SIZE = 32: whatever the formatted data, snprintf stores at most 32
bytes; the formatted text Hello World plus terminator is 12 bytes; and after the
call the first 12 bytes of buf hold the untruncated null-terminated string
Hello World. -/
theorem C2_snprintf_bounded (garbage : CBuf) (w : CWorld) :
    BUF_SIZE = 32 ∧
    (∀ data : List Nat, (snprintf_data BUF_SIZE data).length ≤ BUF_SIZE) ∧
    execStmt (initState garbage w)
      (Stmt.callSnprintf BUF_SIZE helloFmt [CArg.strArg (strBytes worldLit)]) =
      some (afterSnprintf garbage w) ∧
    helloBytes.length = 12 ∧
    (List.ofFn fun i : Fin 12 =>
        (afterSnprintf garbage w).buf (Fin.castLE (by decide) i)) =
      (strBytes helloWorldLit ++ [0]).map some :=
  ⟨rfl, fun data => snprintf_data_length BUF_SIZE data,
    execStmt_snprintf garbage w, rfl, rfl⟩

/-- C3: the memcpy call copies exactly 4 bytes, fewer than the 32-byte capacity
of buf: afterwards the first four bytes of buf are the characters of abcd, and
the recorded write has length 4 against capacity 32, inside the buffer. -/
theorem C3_memcpy_fits (garbage : CBuf) (w : CWorld) :
    safe_examples garbage w = some (finalState garbage w) ∧
    abcdBytes.length = 4 ∧
    4 < BUF_SIZE ∧
    (finalState garbage w).writes.getD 1 { len := 0, cap := 0 } =
      { len := 4, cap := BUF_SIZE } ∧
    (List.ofFn fun i : Fin 4 =>
        (finalState garbage w).buf (Fin.castLE (by decide) i)) =
      (strBytes abcdLit).map some :=
  ⟨safe_examples_run garbage w, rfl, by decide, rfl, rfl⟩

/-- C4: the printf call uses a literal format string whose single %d conversion
matches its single int argument 42 in count and type (the formatting model
succeeds), and every execution of safe_examples appends exactly the text
Value: 42 and a newline to standard output. -/
theorem C4_printf_literal_output (garbage : CBuf) (w : CWorld) :
    (∃ items : List FmtItem, parseFmt valueFmt.toList = some items ∧
      formatArgs items [CArg.intArg 42] = some valueBytes) ∧
    safe_examples garbage w = some (finalState garbage w) ∧
    (finalState garbage w).out = w.out ++ valueBytes ∧
    valueBytes = strBytes valueOutLit :=
  ⟨⟨_, rfl, rfl⟩, safe_examples_run garbage w, rfl, rfl⟩

/-- C5: safe_examples has no error paths: the run never returns none, every one
of the three calls executes within its bounds, and the function completes
normally with all three calls in its trace. -/
theorem C5_no_error_paths (garbage : CBuf) (w : CWorld) :
    safe_examples garbage w = some (finalState garbage w) ∧
    (safe_examples garbage w).isSome = true ∧
    (finalState garbage w).calls = safe_examples_body :=
  ⟨safe_examples_run garbage w, rfl, rfl⟩

/-- C6: the body of safe_examples is exactly three standard-library calls in
order, snprintf, then printf, then memcpy, with constant statically-bounded
arguments; the executed call trace equals that body and does not depend on the
garbage buffer or the outside world. -/
theorem C6_three_calls_in_order (g1 : CBuf) (w1 : CWorld) (g2 : CBuf) (w2 : CWorld) :
    safe_examples_body =
      [ Stmt.callSnprintf BUF_SIZE helloFmt [CArg.strArg (strBytes worldLit)],
        Stmt.callPrintf valueFmt [CArg.intArg 42],
        Stmt.callMemcpy abcdLit 4 ] ∧
    safe_examples g1 w1 = some (finalState g1 w1) ∧
    (finalState g1 w1).calls = safe_examples_body ∧
    (finalState g1 w1).calls = (finalState g2 w2).calls :=
  ⟨rfl, safe_examples_run g1 w1, rfl, rfl⟩

/-- C7: apart from the text appended to standard output, safe_examples leaves
all non-local state unchanged: the non-local memory after the run equals the
memory before it, and the run only appends to standard output. -/
theorem C7_frame_nonlocal_state (garbage : CBuf) (w : CWorld) :
    safe_examples garbage w = some (finalState garbage w) ∧
    (finalState garbage w).mem = w.mem ∧
    (finalState garbage w).out = w.out ++ valueBytes :=
  ⟨safe_examples_run garbage w, rfl, rfl⟩

/-- C8: memcpy overwrites only bytes 0..3 of buf: every byte at index 4 or more
is exactly as snprintf left it, so the first 12 bytes of the final buf spell the
null-terminated string abcdo World. -/
theorem C8_memcpy_preserves_tail (garbage : CBuf) (w : CWorld) (i : Fin BUF_SIZE)
    (h : 4 ≤ i.val) :
    safe_examples garbage w = some (finalState garbage w) ∧
    (finalState garbage w).buf i = (afterSnprintf garbage w).buf i ∧
    (List.ofFn fun j : Fin 12 =>
        (finalState garbage w).buf (Fin.castLE (by decide) j)) =
      (strBytes abcdoLit ++ [0]).map some := by
  refine ⟨safe_examples_run garbage w, ?_, rfl⟩
  exact writeBuf_frame (writeBuf garbage helloBytes) abcdBytes i
    (by rw [show abcdBytes.length = 4 from rfl]; exact h)

/-- C8 witness: the tail-preservation part instantiated at byte 5 of a concrete
run from an all-uninitialized buffer. -/
theorem C8_memcpy_preserves_tail_witness :
    (finalState (fun _ => none) { out := [], mem := fun _ => 0 }).buf ⟨5, by decide⟩ =
      (afterSnprintf (fun _ => none) { out := [], mem := fun _ => 0 }).buf ⟨5, by decide⟩ :=
  (C8_memcpy_preserves_tail (fun _ => none) { out := [], mem := fun _ => 0 }
    ⟨5, by decide⟩ (by decide)).2.1

/-- C9: safe_examples always terminates: its straight-line body has exactly
three statements, the fuel-bounded runner finishes it with three units of fuel,
and the run produces a result. -/
theorem C9_terminates_with_fuel (garbage : CBuf) (w : CWorld) :
    safe_examples_body.length = 3 ∧
    execFuel safe_examples_body.length safe_examples_body (initState garbage w) =
      safe_examples garbage w ∧
    (safe_examples garbage w).isSome = true :=
  ⟨rfl, rfl, rfl⟩

/-- C10: safe_examples is deterministic: any two executions, from any two
garbage buffers and outside worlds, append the same text to standard output and
leave identical contents in the initialized first 12 bytes of buf. -/
theorem C10_deterministic (g1 : CBuf) (w1 : CWorld) (g2 : CBuf) (w2 : CWorld) :
    safe_examples g1 w1 = some (finalState g1 w1) ∧
    safe_examples g2 w2 = some (finalState g2 w2) ∧
    (finalState g1 w1).out.drop w1.out.length =
      (finalState g2 w2).out.drop w2.out.length ∧
    (List.ofFn fun i : Fin 12 =>
        (finalState g1 w1).buf (Fin.castLE (by decide) i)) =
      (List.ofFn fun i : Fin 12 =>
        (finalState g2 w2).buf (Fin.castLE (by decide) i)) := by
  refine ⟨safe_examples_run g1 w1, safe_examples_run g2 w2, ?_, rfl⟩
  show (w1.out ++ valueBytes).drop w1.out.length =
    (w2.out ++ valueBytes).drop w2.out.length
  rw [List.drop_left, List.drop_left]
